import Mathlib

set_option maxHeartbeats 1000000
set_option maxRecDepth 100000

/-!
Verification development for the backend in `src/Backend/server.js`: a small
HTTP service with admin registration/login, a shared-secret admin middleware,
an admin dashboard, and a transactional user-registration endpoint that
creates a user row together with an API-key row.

The JavaScript handlers are shallowly embedded as pure Lean functions.  The
MySQL store is an explicit `DB` value; each query either succeeds, fails with
a duplicate-key error (derived from the data, mirroring the UNIQUE columns of
the schema), or fails with an injected non-duplicate fault (modelling "any
other persistence failure").  Handlers additionally return the final store
state and a list of observable `Event`s (hash invocations, statements sent to
the store, connection checkout/release), so that resource and
"nothing happened" properties can be stated.
-/

/-! ## JavaScript values and falsiness -/

/-- A JSON body field as JavaScript sees it: possibly absent (`undef`),
`null`, a boolean, a number, or a string.  (NaN is not modelled; numbers are
integers here.) -/
inductive JsVal where
  | undef
  | null
  | bool (b : Bool)
  | num (n : Int)
  | str (s : String)
deriving DecidableEq, Repr

/-- JavaScript falsiness, as used by the `if (!field)` validation checks in
every POST handler: `undefined`, `null`, `false`, `0` and `""` are falsy. -/
def falsy : JsVal → Bool
  | .undef => true
  | .null => true
  | .bool b => !b
  | .num n => n == 0
  | .str s => s == ""

/-- The string a truthy body field contributes when used as a template
parameter (mysql2 stringification).  Handlers only apply this to truthy
values, and every claim exercises it on `.str` only. -/
def JsVal.asString : JsVal → String
  | .undef => "undefined"
  | .null => "null"
  | .bool b => cond b "true" "false"
  | .num n => toString n
  | .str s => s

/-! ## Credential utilities

`hashPassword` (server.js line 36-38) is
`crypto.createHash('sha256').update(password).digest('hex')`: SHA-256 of the
UTF-8 bytes of the password, rendered as 64 lowercase hex characters.  We
implement SHA-256 over `Nat` with explicit reduction mod `2^32`. -/

/-- Truncate to a 32-bit word. -/
def w32 (n : Nat) : Nat := n % 4294967296

/-- Right rotation of a 32-bit word by `k` (for `0 < k < 32`). -/
def rotr (k x : Nat) : Nat := w32 (x / 2 ^ k + x % 2 ^ k * 2 ^ (32 - k))

/-- UTF-8 encoding of a single code point. -/
def utf8Encode (c : Nat) : List Nat :=
  if c < 128 then [c]
  else if c < 2048 then [192 + c / 64, 128 + c % 64]
  else if c < 65536 then [224 + c / 4096, 128 + c / 64 % 64, 128 + c % 64]
  else [240 + c / 262144, 128 + c / 4096 % 64, 128 + c / 64 % 64, 128 + c % 64]

/-- UTF-8 bytes of a string (what `hash.update(password)` consumes). -/
def utf8Bytes (s : String) : List Nat :=
  (s.data.map (fun c => utf8Encode c.toNat)).flatten

/-- The 64 SHA-256 round constants. -/
def sha256K : List Nat :=
  [1116352408, 1899447441, 3049323471, 3921009573, 961987163, 1508970993,
   2453635748, 2870763221, 3624381080, 310598401, 607225278, 1426881987,
   1925078388, 2162078206, 2614888103, 3248222580, 3835390401, 4022224774,
   264347078, 604807628, 770255983, 1249150122, 1555081692, 1996064986,
   2554220882, 2821834349, 2952996808, 3210313671, 3336571891, 3584528711,
   113926993, 338241895, 666307205, 773529912, 1294757372, 1396182291,
   1695183700, 1986661051, 2177026350, 2456956037, 2730485921, 2820302411,
   3259730800, 3345764771, 3516065817, 3600352804, 4094571909, 275423344,
   430227734, 506948616, 659060556, 883997877, 958139571, 1322822218,
   1537002063, 1747873779, 1955562222, 2024104815, 2227730452, 2361852424,
   2428436474, 2756734187, 3204031479, 3329325298]

/-- The SHA-256 initial hash value. -/
def sha256Init : List Nat :=
  [1779033703, 3144134277, 1013904242, 2773480762, 1359893119,
   2600822924, 528734635, 1541459225]

def sha256Sigma0 (x : Nat) : Nat := (rotr 7 x) ^^^ (rotr 18 x) ^^^ (x / 8)

def sha256Sigma1 (x : Nat) : Nat := (rotr 17 x) ^^^ (rotr 19 x) ^^^ (x / 1024)

def sha256BigSigma0 (x : Nat) : Nat := (rotr 2 x) ^^^ (rotr 13 x) ^^^ (rotr 22 x)

def sha256BigSigma1 (x : Nat) : Nat := (rotr 6 x) ^^^ (rotr 11 x) ^^^ (rotr 25 x)

def sha256Ch (x y z : Nat) : Nat := (x &&& y) ^^^ ((x ^^^ 4294967295) &&& z)

def sha256Maj (x y z : Nat) : Nat := (x &&& y) ^^^ (x &&& z) ^^^ (y &&& z)

/-- SHA-256 padding: append `0x80`, zero bytes, and the 64-bit big-endian bit
length, reaching a multiple of 64 bytes. -/
def sha256Pad (msg : List Nat) : List Nat :=
  let bitLen := msg.length * 8
  let zeros := (64 - (msg.length + 9) % 64) % 64
  msg ++ 128 :: List.replicate zeros 0 ++
    [bitLen / 2 ^ 56 % 256, bitLen / 2 ^ 48 % 256, bitLen / 2 ^ 40 % 256, bitLen / 2 ^ 32 % 256,
     bitLen / 2 ^ 24 % 256, bitLen / 2 ^ 16 % 256, bitLen / 2 ^ 8 % 256, bitLen % 256]

/-- Big-endian grouping of bytes into 32-bit words. -/
def bytesToWords : List Nat → List Nat
  | a :: b :: c :: d :: rest => (a * 16777216 + b * 65536 + c * 256 + d) :: bytesToWords rest
  | _ => []

/-- Extend the 16 words of a block to the 64-word message schedule. -/
def sha256Schedule (block : List Nat) : List Nat :=
  (List.range 48).foldl
    (fun w j =>
      w ++ [w32 (w.getD j 0 + sha256Sigma0 (w.getD (j + 1) 0) + w.getD (j + 9) 0 +
                  sha256Sigma1 (w.getD (j + 14) 0))])
    block

structure Sha256State where
  a : Nat
  b : Nat
  c : Nat
  d : Nat
  e : Nat
  f : Nat
  g : Nat
  h : Nat
deriving DecidableEq, Repr

/-- One SHA-256 compression round. -/
def sha256Round (st : Sha256State) (k w : Nat) : Sha256State :=
  let t1 := w32 (st.h + sha256BigSigma1 st.e + sha256Ch st.e st.f st.g + k + w)
  let t2 := w32 (sha256BigSigma0 st.a + sha256Maj st.a st.b st.c)
  ⟨w32 (t1 + t2), st.a, st.b, st.c, w32 (st.d + t1), st.e, st.f, st.g⟩

/-- Compress one 16-word block into the running hash value. -/
def sha256Compress (hs : List Nat) (block : List Nat) : List Nat :=
  let w := sha256Schedule block
  let st0 : Sha256State :=
    ⟨hs.getD 0 0, hs.getD 1 0, hs.getD 2 0, hs.getD 3 0, hs.getD 4 0, hs.getD 5 0, hs.getD 6 0,
     hs.getD 7 0⟩
  let st := (sha256K.zip w).foldl (fun st kw => sha256Round st kw.1 kw.2) st0
  [w32 (hs.getD 0 0 + st.a), w32 (hs.getD 1 0 + st.b), w32 (hs.getD 2 0 + st.c),
   w32 (hs.getD 3 0 + st.d), w32 (hs.getD 4 0 + st.e), w32 (hs.getD 5 0 + st.f),
   w32 (hs.getD 6 0 + st.g), w32 (hs.getD 7 0 + st.h)]

/-- SHA-256 of a byte sequence, as eight 32-bit words. -/
def sha256Words (msg : List Nat) : List Nat :=
  let ws := bytesToWords (sha256Pad msg)
  (List.range (ws.length / 16)).foldl (fun hs i => sha256Compress hs ((ws.drop (16 * i)).take 16))
    sha256Init

/-- Lowercase hexadecimal digit for `n < 16`. -/
def hexDigit (n : Nat) : Char := Char.ofNat (if n < 10 then 48 + n else 87 + n)

/-- Two lowercase hex characters of one byte. -/
def byteToHex (b : Nat) : List Char := [hexDigit (b / 16), hexDigit (b % 16)]

/-- Eight lowercase hex characters of one 32-bit word (big-endian). -/
def wordToHex (w : Nat) : List Char :=
  byteToHex (w / 16777216 % 256) ++ byteToHex (w / 65536 % 256) ++ byteToHex (w / 256 % 256) ++
    byteToHex (w % 256)

/-- Function `hashPassword` (server.js lines 36-38):
`crypto.createHash('sha256').update(password).digest('hex')`. -/
def hashPassword (password : String) : String :=
  ⟨((sha256Words (utf8Bytes password)).map wordToHex).flatten⟩

/-- Function `generateApiKey` (server.js lines 40-42):
`crypto.randomBytes(32).toString('hex')`.  The cryptographically random bytes
are an input of the model: `crypto.randomBytes(32)` supplies a list of 32
bytes (each `< 256`), and the function renders them in lowercase hex. -/
def generateApiKey (randomBytes : List Nat) : String :=
  ⟨(randomBytes.map byteToHex).flatten⟩

/-! ## Expiration dates

`getExpirationDate` (server.js lines 44-48) does
`const date = new Date(); date.setDate(date.getDate() + days);
return date.toISOString().slice(0, 19).replace('T', ' ')`.
`new Date()` is the current time `nowMs` in milliseconds since the Unix
epoch, an input of the model.  With the process timezone UTC (no offset
transitions), `setDate(getDate() + days)` advances the clock by exactly
`days` civil days, i.e. `days * 86400000` ms.  `toISOString()` renders the
UTC proleptic-Gregorian date and time; taking the first 19 characters and
replacing `'T'` with a space yields `YYYY-MM-DD HH:MM:SS`.  The
year/month/day decomposition uses the standard civil-from-days algorithm. -/

/-- Gregorian `(year, month, day)` of a day count since 1970-01-01. -/
def civilFromDays (days : Nat) : Nat × Nat × Nat :=
  let z := days + 719468
  let era := z / 146097
  let doe := z % 146097
  let yoe := (doe - doe / 1460 + doe / 36524 - doe / 146096) / 365
  let doy := doe - (365 * yoe + yoe / 4 - yoe / 100)
  let mp := (5 * doy + 2) / 153
  let d := doy - (153 * mp + 2) / 5 + 1
  let m := if mp < 10 then mp + 3 else mp - 9
  let y := yoe + era * 400 + (if m ≤ 2 then 1 else 0)
  (y, m, d)

/-- Decimal digit character. -/
def digitChar (n : Nat) : Char := Char.ofNat (48 + n)

/-- Two-digit zero-padded decimal rendering (as `toISOString` pads). -/
def pad2 (n : Nat) : List Char := [digitChar (n / 10 % 10), digitChar (n % 10)]

/-- Four-digit zero-padded decimal rendering (as `toISOString` pads years). -/
def pad4 (n : Nat) : List Char :=
  [digitChar (n / 1000 % 10), digitChar (n / 100 % 10), digitChar (n / 10 % 10), digitChar (n % 10)]

/-- Rendering `date.toISOString().slice(0, 19).replace('T', ' ')` for a UTC time in ms
since the epoch: the MySQL DATETIME rendering `YYYY-MM-DD HH:MM:SS`. -/
def isoDatetimeOfMs (ms : Nat) : String :=
  let ymd := civilFromDays (ms / 86400000)
  let secs := ms % 86400000 / 1000
  ⟨pad4 ymd.1 ++ '-' :: pad2 ymd.2.1 ++ '-' :: pad2 ymd.2.2 ++
    ' ' :: pad2 (secs / 3600) ++ ':' :: pad2 (secs % 3600 / 60) ++ ':' :: pad2 (secs % 60)⟩

/-- Function `getExpirationDate` (server.js lines 44-48); see the section comment for
why `setDate(getDate() + days)` is `+ days * 86400000` ms under UTC. -/
def getExpirationDate (nowMs : Nat) (days : Nat := 30) : String :=
  isoDatetimeOfMs (nowMs + days * 86400000)

/-- Decidable check that a string has the MySQL DATETIME shape
`YYYY-MM-DD HH:MM:SS`: length 19, digits in every data position, `-`, space
and `:` separators. -/
def isMysqlDatetimeShape (s : String) : Bool :=
  match s.data with
  | [y1, y2, y3, y4, s1, m1, m2, s2, d1, d2, s3, h1, h2, s4, n1, n2, s5, c1, c2] =>
    y1.isDigit && y2.isDigit && y3.isDigit && y4.isDigit && s1 == '-' &&
    m1.isDigit && m2.isDigit && s2 == '-' && d1.isDigit && d2.isDigit && s3 == ' ' &&
    h1.isDigit && h2.isDigit && s4 == ':' && n1.isDigit && n2.isDigit && s5 == ':' &&
    c1.isDigit && c2.isDigit
  | _ => false

/-! ## The store

Three tables with auto-increment ids and store-assigned `created_at`
timestamps (`tick` is a strictly increasing insertion counter standing for
`NOW()`).  UNIQUE columns per the schema: `admins.email`, `users.email`,
`api_keys.api_key`.  A query either succeeds, raises `ER_DUP_ENTRY` (from the
data), or raises some other store error — the latter is injected through a
`Bool` fault flag, checked first: a forced failure means the statement never
takes effect. -/

structure AdminRow where
  id : Nat
  email : String
  password_hash : String
deriving DecidableEq, Repr

structure UserRow where
  id : Nat
  first_name : String
  last_name : String
  email : String
  created_at : Nat
deriving DecidableEq, Repr

structure ApiKeyRow where
  id : Nat
  user_id : Nat
  api_key : String
  expires_at : String
  created_at : Nat
deriving DecidableEq, Repr

structure DB where
  admins : List AdminRow
  users : List UserRow
  apiKeys : List ApiKeyRow
  nextAdminId : Nat
  nextUserId : Nat
  nextKeyId : Nat
  tick : Nat
deriving DecidableEq, Repr

def emptyDB : DB := ⟨[], [], [], 1, 1, 1, 0⟩

/-- Store error kinds distinguished by the handlers
(`error.code === 'ER_DUP_ENTRY'` vs anything else). -/
inductive DbErr where
  | dup
  | other
deriving DecidableEq, Repr

/-- Query `INSERT INTO admins (email, password_hash) VALUES (?, ?)`. -/
def insertAdmin (db : DB) (em hash : String) (fault : Bool) : Except DbErr DB :=
  if fault then .error .other
  else if db.admins.any (fun a => a.email == em) then .error .dup
  else .ok { db with admins := db.admins ++ [⟨db.nextAdminId, em, hash⟩],
                     nextAdminId := db.nextAdminId + 1 }

/-- Query `INSERT INTO users (first_name, last_name, email) VALUES (?, ?, ?)`;
returns the store together with `result.insertId`. -/
def insertUser (db : DB) (fn ln em : String) (fault : Bool) : Except DbErr (DB × Nat) :=
  if fault then .error .other
  else if db.users.any (fun u => u.email == em) then .error .dup
  else
    .ok ({ db with users := db.users ++ [⟨db.nextUserId, fn, ln, em, db.tick⟩],
                   nextUserId := db.nextUserId + 1, tick := db.tick + 1 },
         db.nextUserId)

/-- Query `INSERT INTO api_keys (user_id, api_key, expires_at) VALUES (?, ?, ?)`. -/
def insertApiKey (db : DB) (uid : Nat) (key expAt : String) (fault : Bool) : Except DbErr DB :=
  if fault then .error .other
  else if db.apiKeys.any (fun k => k.api_key == key) then .error .dup
  else .ok { db with apiKeys := db.apiKeys ++ [⟨db.nextKeyId, uid, key, expAt, db.tick⟩],
                     nextKeyId := db.nextKeyId + 1, tick := db.tick + 1 }

/-- Query `SELECT password_hash FROM admins WHERE email = ?`, then `rows[0]`. -/
def findAdmin (db : DB) (em : String) : Option AdminRow :=
  db.admins.find? (fun a => a.email == em)

/-! ## Observable events -/

/-- Events a handler run emits, in order: a `hashPassword` invocation, a
statement sent to the store (queries, `BEGIN`, `COMMIT`, `ROLLBACK`), and the
checkout/release of a pooled connection. -/
inductive Event where
  | hashCall
  | dbOp
  | connAcquire
  | connRelease
deriving DecidableEq, Repr

/-! ## Admin authentication middleware (server.js lines 53-64) -/

inductive AuthResult where
  | unauthenticated
  | forbidden
  | allowed
deriving DecidableEq, Repr

/-- Check `authHeader.startsWith('Bearer ')`, at the character level. -/
def schemeOk (h : String) : Bool := "Bearer ".data.isPrefixOf h.data

/-- Expression `authHeader.split(' ')[1]`: the characters after the first space and
before the next one (`none` when the header has no space, in which case the
JavaScript index is `undefined`). -/
def splitSecond (cs : List Char) : Option (List Char) :=
  match cs.dropWhile (fun c => c != ' ') with
  | [] => none
  | _ :: rest => some (rest.takeWhile (fun c => c != ' '))

/-- Middleware `adminAuthMiddleware`: 401 when the header is absent, empty (falsy) or
does not start with `'Bearer '`; otherwise compare `split(' ')[1]` with the
configured `ADMIN_TOKEN_DUMMY` — equal means `next()`, different means 403.
(An absent second segment compares as `undefined`, never equal to the
configured string.) -/
def adminAuthMiddleware (adminToken : String) (authHeader : Option String) : AuthResult :=
  match authHeader with
  | none => .unauthenticated
  | some h =>
    if h.data.isEmpty || !(schemeOk h) then .unauthenticated
    else
      match splitSecond h.data with
      | some t => if String.mk t = adminToken then .allowed else .forbidden
      | none => .forbidden

/-! ## Route handlers -/

structure AdminRegisterResp where
  status : Nat
  message : String
deriving DecidableEq, Repr

/-- Handler for `POST /api/admin/register` (server.js lines 71-90).  `fault` injects a
non-duplicate store failure of the INSERT. -/
def adminRegister (db : DB) (fault : Bool) (email password : JsVal) :
    AdminRegisterResp × DB × List Event :=
  if falsy email || falsy password then
    (⟨400, "Email dan password diperlukan."⟩, db, [])
  else
    let password_hash := hashPassword password.asString
    match insertAdmin db email.asString password_hash fault with
    | .ok db' => (⟨201, "Admin berhasil didaftarkan."⟩, db', [.hashCall, .dbOp])
    | .error .dup => (⟨409, "Email admin sudah terdaftar."⟩, db, [.hashCall, .dbOp])
    | .error .other => (⟨500, "Gagal mendaftarkan admin."⟩, db, [.hashCall, .dbOp])

structure AdminLoginResp where
  status : Nat
  message : String
  token : Option String
deriving DecidableEq, Repr

/-- Handler for `POST /api/admin/login` (server.js lines 93-117).  `adminToken` is the
configured `ADMIN_TOKEN_DUMMY`; `fault` injects a failure of the SELECT. -/
def adminLogin (adminToken : String) (db : DB) (fault : Bool) (email password : JsVal) :
    AdminLoginResp × DB × List Event :=
  if falsy email || falsy password then
    (⟨400, "Email dan password diperlukan.", none⟩, db, [])
  else if fault then
    (⟨500, "Gagal login.", none⟩, db, [.dbOp])
  else
    match findAdmin db email.asString with
    | none => (⟨401, "Email atau password salah.", none⟩, db, [.dbOp])
    | some admin =>
      let inputHash := hashPassword password.asString
      if inputHash = admin.password_hash then
        (⟨200, "Login berhasil.", some adminToken⟩, db, [.dbOp, .hashCall])
      else
        (⟨401, "Email atau password salah.", none⟩, db, [.dbOp, .hashCall])

structure UserView where
  id : Nat
  first_name : String
  last_name : String
  email : String
deriving DecidableEq, Repr

structure KeyView where
  id : Nat
  user_id : Nat
  api_key : String
  expires_at : String
deriving DecidableEq, Repr

/-- Query `SELECT id, first_name, last_name, email FROM users ORDER BY created_at
DESC`: `created_at` is the strictly increasing insertion counter, so
descending order is the reverse of insertion order. -/
def usersQuery (db : DB) : List UserView :=
  (db.users.map (fun u => ⟨u.id, u.first_name, u.last_name, u.email⟩)).reverse

/-- Query `SELECT id, user_id, api_key, expires_at FROM api_keys ORDER BY
created_at DESC`. -/
def keysQuery (db : DB) : List KeyView :=
  (db.apiKeys.map (fun k => ⟨k.id, k.user_id, k.api_key, k.expires_at⟩)).reverse

structure DashboardResp where
  status : Nat
  message : Option String
  users : Option (List UserView)
  keys : Option (List KeyView)
deriving DecidableEq, Repr

/-- The `GET /api/admin/dashboard` handler body (server.js lines 120-129);
`fUsers`/`fKeys` inject failures of the two SELECTs. -/
def adminDashboard (db : DB) (fUsers fKeys : Bool) : DashboardResp :=
  if fUsers then ⟨500, some "Gagal mengambil data dasbor.", none, none⟩
  else if fKeys then ⟨500, some "Gagal mengambil data dasbor.", none, none⟩
  else ⟨200, none, some (usersQuery db), some (keysQuery db)⟩

/-- The full dashboard route: `adminAuthMiddleware` first, then the handler. -/
def dashboardRoute (adminToken : String) (db : DB) (authHeader : Option String)
    (fUsers fKeys : Bool) : DashboardResp :=
  match adminAuthMiddleware adminToken authHeader with
  | .unauthenticated => ⟨401, some "Autentikasi diperlukan.", none, none⟩
  | .forbidden => ⟨403, some "Token admin tidak valid.", none, none⟩
  | .allowed => adminDashboard db fUsers fKeys

structure UserRegisterResp where
  status : Nat
  message : String
  apiKey : Option String
  expiresAt : Option String
deriving DecidableEq, Repr

/-- Injected store failures for the user-registration transaction:
`pool.getConnection()` failing, a non-duplicate failure of either INSERT, and
a failure of `COMMIT`. -/
structure Faults where
  connFail : Bool
  userInsertFault : Bool
  keyInsertFault : Bool
  commitFault : Bool
deriving DecidableEq, Repr

def noFaults : Faults := ⟨false, false, false, false⟩

/-- Handler for `POST /api/user/register` (server.js lines 136-177).  The transaction runs
on one checked-out connection; on any error after checkout the handler rolls
back (restoring the store seen at `beginTransaction`) and the `finally` block
releases the connection.  `entropy` is the byte list `crypto.randomBytes(32)`
produces; `nowMs` is the current time.  Events per path: connection checkout,
`BEGIN`, the statements attempted, `ROLLBACK`/`COMMIT`, release. -/
def userRegister (db : DB) (f : Faults) (entropy : List Nat) (nowMs : Nat)
    (first_name last_name email : JsVal) : UserRegisterResp × DB × List Event :=
  if falsy first_name || falsy last_name || falsy email then
    (⟨400, "Nama depan, nama belakang, dan email diperlukan.", none, none⟩, db, [])
  else if f.connFail then
    (⟨500, "Gagal registrasi pengguna.", none, none⟩, db, [])
  else
    match insertUser db first_name.asString last_name.asString email.asString f.userInsertFault with
    | .error .dup =>
      (⟨409, "Email pengguna sudah terdaftar.", none, none⟩, db,
       [.connAcquire, .dbOp, .dbOp, .dbOp, .connRelease])
    | .error .other =>
      (⟨500, "Gagal registrasi pengguna.", none, none⟩, db,
       [.connAcquire, .dbOp, .dbOp, .dbOp, .connRelease])
    | .ok (db1, newUserId) =>
      let apiKey := generateApiKey entropy
      let expiresAt := getExpirationDate nowMs 30
      match insertApiKey db1 newUserId apiKey expiresAt f.keyInsertFault with
      | .error .dup =>
        (⟨409, "Email pengguna sudah terdaftar.", none, none⟩, db,
         [.connAcquire, .dbOp, .dbOp, .dbOp, .dbOp, .connRelease])
      | .error .other =>
        (⟨500, "Gagal registrasi pengguna.", none, none⟩, db,
         [.connAcquire, .dbOp, .dbOp, .dbOp, .dbOp, .connRelease])
      | .ok db2 =>
        if f.commitFault then
          (⟨500, "Gagal registrasi pengguna.", none, none⟩, db,
           [.connAcquire, .dbOp, .dbOp, .dbOp, .dbOp, .dbOp, .connRelease])
        else
          (⟨201, "Registrasi berhasil. API Key dibuat.", some apiKey, some expiresAt⟩, db2,
           [.connAcquire, .dbOp, .dbOp, .dbOp, .dbOp, .connRelease])

/-! ## Routes (server.js lines 11, 71, 93, 120, 136) -/

inductive Method where
  | GET
  | POST
deriving DecidableEq, Repr

structure Route where
  method : Method
  path : String
deriving DecidableEq, Repr

/-- The four route registrations, each path built by the template literal
`|${API_PREFIX}<endpoint>|` from the path prefix. -/
def routesFor (p : String) : List Route :=
  [⟨.POST, p ++ "/admin/register"⟩,
   ⟨.POST, p ++ "/admin/login"⟩,
   ⟨.GET, p ++ "/admin/dashboard"⟩,
   ⟨.POST, p ++ "/user/register"⟩]

/-- Constant `API_PREFIX = '/api'` (server.js line 11). -/
def API_PREFIX : String := "/api"

/-- The routes the server actually registers. -/
def routes : List Route := routesFor API_PREFIX

/-! ## Helper lemmas -/

theorem strDataAppend (s t : String) : (s ++ t).data = s.data ++ t.data := by
  cases s
  cases t
  rfl

theorem stringMkEqIff (l : List Char) (t : String) : String.mk l = t ↔ l = t.data := by
  cases t
  exact ⟨fun h => by injection h, fun h => by rw [h]⟩

/-- Lowercase hexadecimal characters `0-9a-f`. -/
def isHexChar (c : Char) : Bool := c.isDigit || ('a' ≤ c && c ≤ 'f')

theorem hexDigit_isHexChar : ∀ n < 16, isHexChar (hexDigit n) = true := by decide

theorem digitChar_isDigit : ∀ n < 10, (digitChar n).isDigit = true := by decide

theorem byteToHex_all_hex (b : Nat) (hb : b < 256) :
    ∀ c ∈ byteToHex b, isHexChar c = true := by
  intro c hc
  have h1 : b / 16 < 16 := by omega
  have h2 : b % 16 < 16 := Nat.mod_lt _ (by omega)
  simp only [byteToHex, List.mem_cons, List.mem_singleton] at hc
  rcases hc with rfl | rfl | h
  · exact hexDigit_isHexChar _ h1
  · exact hexDigit_isHexChar _ h2
  · cases h

theorem flatten_byteToHex_length (bs : List Nat) :
    ((bs.map byteToHex).flatten).length = 2 * bs.length := by
  induction bs with
  | nil => rfl
  | cons b t ih =>
    simp only [List.map_cons, List.flatten_cons, List.length_append, ih, byteToHex]
    simp
    omega

/-- Full case analysis of one run of the user-registration handler. -/
theorem userRegister_run (db : DB) (f : Faults) (ent : List Nat) (nowMs : Nat)
    (fn ln em : JsVal) (r : UserRegisterResp) (db' : DB) (ev : List Event)
    (h : userRegister db f ent nowMs fn ln em = (r, db', ev)) :
    (r.status = 201 →
      r.apiKey = some (generateApiKey ent) ∧
      r.expiresAt = some (getExpirationDate nowMs 30) ∧
      db'.users = db.users ++ [⟨db.nextUserId, fn.asString, ln.asString, em.asString, db.tick⟩] ∧
      db'.apiKeys = db.apiKeys ++ [⟨db.nextKeyId, db.nextUserId, generateApiKey ent,
        getExpirationDate nowMs 30, db.tick + 1⟩] ∧
      db'.admins = db.admins) ∧
    (r.status ≠ 201 → db' = db) ∧
    (f.keyInsertFault = true → db' = db ∧ r.status ≠ 201) ∧
    (ev.count Event.connAcquire = ev.count Event.connRelease ∧
      (Event.connAcquire ∈ ev ↔ Event.connRelease ∈ ev)) := by
  unfold userRegister at h
  split at h
  · simp only [Prod.mk.injEq] at h
    obtain ⟨rfl, rfl, rfl⟩ := h
    exact ⟨fun hc => absurd hc (by decide), fun _ => rfl,
           fun _ => ⟨rfl, by decide⟩, by decide⟩
  · split at h
    · simp only [Prod.mk.injEq] at h
      obtain ⟨rfl, rfl, rfl⟩ := h
      exact ⟨fun hc => absurd hc (by decide), fun _ => rfl,
             fun _ => ⟨rfl, by decide⟩, by decide⟩
    · split at h
      · simp only [Prod.mk.injEq] at h
        obtain ⟨rfl, rfl, rfl⟩ := h
        exact ⟨fun hc => absurd hc (by decide), fun _ => rfl,
               fun _ => ⟨rfl, by decide⟩, by decide⟩
      · simp only [Prod.mk.injEq] at h
        obtain ⟨rfl, rfl, rfl⟩ := h
        exact ⟨fun hc => absurd hc (by decide), fun _ => rfl,
               fun _ => ⟨rfl, by decide⟩, by decide⟩
      · next db1 newUserId heq =>
        -- the `split` tactic reaches the inner commit `if` first, then the
        -- api-key insert; only the commit-succeeded, insert-succeeded arm
        -- responds 201
        split at h
        · dsimp only at h
          split at h
          · simp only [Prod.mk.injEq] at h
            obtain ⟨rfl, rfl, rfl⟩ := h
            exact ⟨fun hc => absurd hc (by decide), fun _ => rfl,
                   fun _ => ⟨rfl, by decide⟩, by decide⟩
          · simp only [Prod.mk.injEq] at h
            obtain ⟨rfl, rfl, rfl⟩ := h
            exact ⟨fun hc => absurd hc (by decide), fun _ => rfl,
                   fun _ => ⟨rfl, by decide⟩, by decide⟩
          · simp only [Prod.mk.injEq] at h
            obtain ⟨rfl, rfl, rfl⟩ := h
            exact ⟨fun hc => absurd hc (by decide), fun _ => rfl,
                   fun _ => ⟨rfl, by decide⟩, by decide⟩
        · dsimp only at h
          split at h
          · simp only [Prod.mk.injEq] at h
            obtain ⟨rfl, rfl, rfl⟩ := h
            exact ⟨fun hc => absurd hc (by decide), fun _ => rfl,
                   fun _ => ⟨rfl, by decide⟩, by decide⟩
          · simp only [Prod.mk.injEq] at h
            obtain ⟨rfl, rfl, rfl⟩ := h
            exact ⟨fun hc => absurd hc (by decide), fun _ => rfl,
                   fun _ => ⟨rfl, by decide⟩, by decide⟩
          · next db2 heq2 =>
            simp only [Prod.mk.injEq] at h
            obtain ⟨rfl, rfl, rfl⟩ := h
            rw [insertUser] at heq
            split at heq
            · cases heq
            · split at heq
              · cases heq
              · simp only [Except.ok.injEq, Prod.mk.injEq] at heq
                obtain ⟨rfl, rfl⟩ := heq
                rw [insertApiKey] at heq2
                split at heq2
                · cases heq2
                · split at heq2
                  · cases heq2
                  · simp only [Except.ok.injEq] at heq2
                    subst heq2
                    refine ⟨fun _ => ⟨rfl, rfl, by simp, by simp, by simp⟩,
                            fun hne => absurd rfl hne, fun hk => ?_, by decide⟩
                    simp_all

/-! ## Claim theorems -/

/-- C1: user registration is atomic.  For every valid input (all three fields
truthy) and every combination of store faults and data, either the handler
responds 201 and exactly one new User row and exactly one new ApiKey row
whose `user_id` equals the new User's id are appended, or the response is not
201 and the store is exactly as before (the transaction rolled back); in
particular a forced failure of the ApiKey insert leaves zero new User rows. -/
theorem C1_user_registration_atomic (db : DB) (f : Faults) (ent : List Nat) (nowMs : Nat)
    (fn ln em : JsVal) (r : UserRegisterResp) (db' : DB) (ev : List Event)
    (hfn : falsy fn = false) (hln : falsy ln = false) (hem : falsy em = false)
    (h : userRegister db f ent nowMs fn ln em = (r, db', ev)) :
    (r.status = 201 →
      db'.users = db.users ++ [⟨db.nextUserId, fn.asString, ln.asString, em.asString, db.tick⟩] ∧
      db'.apiKeys = db.apiKeys ++ [⟨db.nextKeyId, db.nextUserId, generateApiKey ent,
        getExpirationDate nowMs 30, db.tick + 1⟩] ∧
      db'.admins = db.admins) ∧
    (r.status ≠ 201 → db' = db) ∧
    (f.keyInsertFault = true → db' = db ∧ r.status ≠ 201) := by
  obtain ⟨hA, hB, hC, _⟩ := userRegister_run db f ent nowMs fn ln em r db' ev h
  exact ⟨fun h201 => (hA h201).2.2, hB, hC⟩

/-- Witness for C1: a concrete successful registration on the empty store,
and a concrete run with the ApiKey insert forced to fail, which leaves the
store empty. -/
theorem C1_user_registration_atomic_witness :
    ((userRegister emptyDB noFaults (List.replicate 32 7) 1760227200000
        (.str "Ada") (.str "Lovelace") (.str "ada@example.com")).2.1.users =
      emptyDB.users ++ [⟨1, "Ada", "Lovelace", "ada@example.com", 0⟩]) ∧
    ((userRegister emptyDB ⟨false, false, true, false⟩ (List.replicate 32 7) 1760227200000
        (.str "Ada") (.str "Lovelace") (.str "ada@example.com")).2.1 = emptyDB) := by
  constructor
  · have h := C1_user_registration_atomic emptyDB noFaults (List.replicate 32 7) 1760227200000
      (.str "Ada") (.str "Lovelace") (.str "ada@example.com") _ _ _
      (by decide) (by decide) (by decide) rfl
    exact (h.1 (by decide)).1
  · have h := C1_user_registration_atomic emptyDB ⟨false, false, true, false⟩
      (List.replicate 32 7) 1760227200000
      (.str "Ada") (.str "Lovelace") (.str "ada@example.com") _ _ _
      (by decide) (by decide) (by decide) rfl
    exact (h.2.2 rfl).1

/-- C7: in every terminating run of the user-registration handler — success,
validation failure, connection failure, either insert failing, commit
failing — the number of connection checkouts equals the number of releases,
and a connection was checked out iff it was released: no run leaks a pooled
connection. -/
theorem C7_connection_always_released (db : DB) (f : Faults) (ent : List Nat) (nowMs : Nat)
    (fn ln em : JsVal) :
    ((userRegister db f ent nowMs fn ln em).2.2.count Event.connAcquire =
      (userRegister db f ent nowMs fn ln em).2.2.count Event.connRelease) ∧
    (Event.connAcquire ∈ (userRegister db f ent nowMs fn ln em).2.2 ↔
      Event.connRelease ∈ (userRegister db f ent nowMs fn ln em).2.2) := by
  exact (userRegister_run db f ent nowMs fn ln em _ _ _ rfl).2.2.2

/-- C8: every route the server registers is the configured path prefix
followed by the endpoint path of the interface table; the prefix constant is
`/api`, and the registered paths are exactly the four prefixed endpoints. -/
theorem C8_routes_under_configured_root :
    API_PREFIX = "/api" ∧
    routes = routesFor "/api" ∧
    (∀ p : String, (routesFor p).map Route.path =
      [p ++ "/admin/register", p ++ "/admin/login", p ++ "/admin/dashboard",
       p ++ "/user/register"]) ∧
    routes.map Route.path =
      ["/api/admin/register", "/api/admin/login", "/api/admin/dashboard",
       "/api/user/register"] := by
  refine ⟨rfl, rfl, fun p => rfl, by decide⟩

/-- C5: for every 32-byte output of the random source, `generateApiKey`
returns a string of length exactly 64 all of whose characters are lowercase
hexadecimal, and any 201 response of user registration carries exactly that
string as its `apiKey`. -/
theorem C5_generateApiKey_hex64 (bs : List Nat) (hlen : bs.length = 32)
    (hbytes : ∀ b ∈ bs, b < 256) :
    (generateApiKey bs).length = 64 ∧
    (generateApiKey bs).data.all isHexChar = true ∧
    (∀ (db : DB) (f : Faults) (nowMs : Nat) (fn ln em : JsVal) (r : UserRegisterResp)
       (db' : DB) (ev : List Event),
       userRegister db f bs nowMs fn ln em = (r, db', ev) → r.status = 201 →
       r.apiKey = some (generateApiKey bs)) := by
  refine ⟨?_, ?_, ?_⟩
  · show ((bs.map byteToHex).flatten).length = 64
    rw [flatten_byteToHex_length, hlen]
  · rw [List.all_eq_true]
    intro c hc
    obtain ⟨l, hl, hcl⟩ := List.mem_flatten.mp hc
    obtain ⟨b, hb, rfl⟩ := List.mem_map.mp hl
    exact byteToHex_all_hex b (hbytes b hb) c hcl
  · intro db f nowMs fn ln em r db' ev h h201
    exact ((userRegister_run db f bs nowMs fn ln em r db' ev h).1 h201).1

/-- Witness for C5: a concrete 32-byte entropy input, its 64-character hex
rendering, and the 201 response of a concrete registration carrying it. -/
theorem C5_generateApiKey_hex64_witness :
    (generateApiKey (List.replicate 32 171)).length = 64 ∧
    (generateApiKey (List.replicate 32 171)).data.all isHexChar = true ∧
    (userRegister emptyDB noFaults (List.replicate 32 171) 1760227200000
      (.str "Ada") (.str "Lovelace") (.str "ada@example.com")).1.apiKey =
      some (generateApiKey (List.replicate 32 171)) := by
  have h := C5_generateApiKey_hex64 (List.replicate 32 171) (by decide) (by decide)
  exact ⟨h.1, h.2.1, h.2.2 emptyDB noFaults 1760227200000 (.str "Ada") (.str "Lovelace")
    (.str "ada@example.com") _ _ _ rfl (by decide)⟩

theorem falsyStr_false {s : String} (h : s ≠ "") : falsy (.str s) = false := by
  simp only [falsy]
  exact beq_eq_false_iff_ne.mpr h

/-- C9: required-field validation is JavaScript falsiness.  In each of the
three POST handlers, if any required field is falsy — absent, `null`,
`false`, `0` or the empty string — the handler returns 400 with the store
unchanged and an empty event trace (so no hash call and no statement reaches
the store), and the run is equal to the run with the fields missing. -/
theorem C9_falsy_fields_rejected (db : DB) (tok : String) (fault : Bool) (f : Faults)
    (ent : List Nat) (nowMs : Nat) (e p fn ln em : JsVal) :
    (falsy e = true ∨ falsy p = true →
      adminRegister db fault e p = (⟨400, "Email dan password diperlukan."⟩, db, []) ∧
      adminRegister db fault e p = adminRegister db fault .undef .undef) ∧
    (falsy e = true ∨ falsy p = true →
      adminLogin tok db fault e p = (⟨400, "Email dan password diperlukan.", none⟩, db, []) ∧
      adminLogin tok db fault e p = adminLogin tok db fault .undef .undef) ∧
    (falsy fn = true ∨ falsy ln = true ∨ falsy em = true →
      userRegister db f ent nowMs fn ln em =
        (⟨400, "Nama depan, nama belakang, dan email diperlukan.", none, none⟩, db, []) ∧
      userRegister db f ent nowMs fn ln em = userRegister db f ent nowMs .undef .undef .undef) := by
  refine ⟨fun hv => ?_, fun hv => ?_, fun hv => ?_⟩
  · have hb : (falsy e || falsy p) = true := by rcases hv with h | h <;> simp [h]
    rw [adminRegister, if_pos hb]
    exact ⟨rfl, rfl⟩
  · have hb : (falsy e || falsy p) = true := by rcases hv with h | h <;> simp [h]
    rw [adminLogin, if_pos hb]
    exact ⟨rfl, rfl⟩
  · have hb : (falsy fn || falsy ln || falsy em) = true := by
      rcases hv with h | h | h <;> simp [h]
    rw [userRegister, if_pos hb]
    exact ⟨rfl, rfl⟩

/-- Witness for C9: an empty-string email at admin registration, a `0` field
at admin login and a `null` field at user registration all yield 400 with the
store untouched and nothing executed. -/
theorem C9_falsy_fields_rejected_witness :
    adminRegister emptyDB false (.str "") (.str "pw") =
      (⟨400, "Email dan password diperlukan."⟩, emptyDB, []) ∧
    adminLogin "tok" emptyDB false (.str "a@b") (.num 0) =
      (⟨400, "Email dan password diperlukan.", none⟩, emptyDB, []) ∧
    userRegister emptyDB noFaults [] 0 (.str "Ada") .null (.str "a@b") =
      (⟨400, "Nama depan, nama belakang, dan email diperlukan.", none, none⟩, emptyDB, []) := by
  refine ⟨?_, ?_, ?_⟩
  · exact ((C9_falsy_fields_rejected emptyDB "tok" false noFaults [] 0
      (.str "") (.str "pw") .undef .undef .undef).1 (Or.inl (by decide))).1
  · exact ((C9_falsy_fields_rejected emptyDB "tok" false noFaults [] 0
      (.str "a@b") (.num 0) .undef .undef .undef).2.1 (Or.inr (by decide))).1
  · exact ((C9_falsy_fields_rejected emptyDB "tok" false noFaults [] 0
      .undef .undef (.str "Ada") .null (.str "a@b")).2.2
      (Or.inr (Or.inl (by decide)))).1

/-- C2: the two admin-login failure causes are indistinguishable.  For truthy
credentials and a healthy store, a login whose email matches no admin and a
login whose email matches an admin but whose password hashes to something
other than the stored hash produce the same response: 401 with the one
generic message. -/
theorem C2_login_failures_indistinguishable (tok : String) (db : DB) (e1 p1 e2 p2 : String)
    (a : AdminRow) (he1 : e1 ≠ "") (hp1 : p1 ≠ "") (he2 : e2 ≠ "") (hp2 : p2 ≠ "")
    (hnone : findAdmin db e1 = none) (hsome : findAdmin db e2 = some a)
    (hwrong : hashPassword p2 ≠ a.password_hash) :
    (adminLogin tok db false (.str e1) (.str p1)).1 =
      (adminLogin tok db false (.str e2) (.str p2)).1 ∧
    (adminLogin tok db false (.str e1) (.str p1)).1 =
      ⟨401, "Email atau password salah.", none⟩ := by
  have h1 := falsyStr_false he1
  have h2 := falsyStr_false hp1
  have h3 := falsyStr_false he2
  have h4 := falsyStr_false hp2
  constructor <;>
    simp [adminLogin, JsVal.asString, h1, h2, h3, h4, hnone, hsome, hwrong]

/-- Witness for C2: a store with one admin; logging in with an unknown email
and with the right email but the wrong password give identical responses. -/
theorem C2_login_failures_indistinguishable_witness :
    (adminLogin "t" ⟨[⟨1, "x@y", hashPassword "right"⟩], [], [], 2, 1, 1, 0⟩ false
        (.str "no@no") (.str "p")).1 =
      (adminLogin "t" ⟨[⟨1, "x@y", hashPassword "right"⟩], [], [], 2, 1, 1, 0⟩ false
        (.str "x@y") (.str "wrong")).1 := by
  exact (C2_login_failures_indistinguishable "t" _ "no@no" "p" "x@y" "wrong"
    ⟨1, "x@y", hashPassword "right"⟩ (by decide) (by decide) (by decide) (by decide)
    (by decide) (by decide) (by decide)).1

/-- C3: registration/login round trip.  Whenever admin registration of a
truthy email/password responds 201 (the row was inserted), a login against
the resulting store with the same email and password responds 200 with the
one configured static admin token; the comparison succeeds because
`hashPassword` is a function — identical input yields identical output. -/
theorem C3_register_then_login_roundtrip (tok : String) (db : DB) (e p : String)
    (he : e ≠ "") (hp : p ≠ "")
    (h201 : (adminRegister db false (.str e) (.str p)).1.status = 201) :
    (adminLogin tok (adminRegister db false (.str e) (.str p)).2.1 false
        (.str e) (.str p)).1 = ⟨200, "Login berhasil.", some tok⟩ ∧
    (∀ s : String, hashPassword s = hashPassword s) := by
  have hfe := falsyStr_false he
  have hfp := falsyStr_false hp
  by_cases hdup : (db.admins.any fun a => a.email == e) = true
  · simp [adminRegister, JsVal.asString, hfe, hfp, insertAdmin, hdup] at h201
  · have hdup' : (db.admins.any fun a => a.email == e) = false :=
      Bool.not_eq_true _ ▸ hdup
    have hfind : db.admins.find? (fun a => a.email == e) = none :=
      List.find?_eq_none.mpr (List.any_eq_false.mp hdup')
    refine ⟨?_, fun s => rfl⟩
    simp [adminRegister, adminLogin, findAdmin, JsVal.asString, hfe, hfp, insertAdmin,
      hdup', List.find?_append, hfind]

/-- Witness for C3: registering `a@b.c` with password `pw` on the empty
store and logging back in returns 200 with the configured token. -/
theorem C3_register_then_login_roundtrip_witness :
    (adminLogin "tok" (adminRegister emptyDB false (.str "a@b.c") (.str "pw")).2.1 false
        (.str "a@b.c") (.str "pw")).1 = ⟨200, "Login berhasil.", some "tok"⟩ := by
  exact (C3_register_then_login_roundtrip "tok" emptyDB "a@b.c" "pw"
    (by decide) (by decide) (by decide)).1

theorem schemeOk_ne_nil {h : String} (hs : schemeOk h = true) : h.data.isEmpty = false := by
  cases hd : h.data with
  | nil => rw [schemeOk, hd] at hs; exact absurd hs (by decide)
  | cons c cs => rfl

/-- C4: dashboard authentication.  With the two read queries healthy: a
missing header, or one that is falsy or does not start with `Bearer `,
yields 401; a well-formed header whose first space-delimited token differs
from the configured secret yields 403; and the run reaches the handler —
responding 200 with both projected lists — exactly when the token equals the
secret. -/
theorem C4_dashboard_auth (tok : String) (db : DB) (hdr : Option String) :
    ((hdr = none ∨ ∃ h, hdr = some h ∧ (h.data.isEmpty || !(schemeOk h)) = true) →
      (dashboardRoute tok db hdr false false).status = 401) ∧
    (∀ h, hdr = some h → schemeOk h = true → splitSecond h.data ≠ some tok.data →
      (dashboardRoute tok db hdr false false).status = 403) ∧
    (∀ h, hdr = some h → schemeOk h = true → splitSecond h.data = some tok.data →
      dashboardRoute tok db hdr false false =
        ⟨200, none, some (usersQuery db), some (keysQuery db)⟩) ∧
    ((dashboardRoute tok db hdr false false).status = 200 ↔
      ∃ h, hdr = some h ∧ schemeOk h = true ∧ splitSecond h.data = some tok.data) := by
  cases hdr with
  | none =>
    refine ⟨fun _ => rfl, ?_, ?_, ?_⟩
    · intro h' hh' _ _
      cases hh'
    · intro h' hh' _ _
      cases hh'
    · constructor
      · intro hc
        have h401 : (dashboardRoute tok db none false false).status = 401 := rfl
        omega
      · rintro ⟨h', hh', -⟩
        cases hh'
  | some h =>
    by_cases hscheme : schemeOk h = true
    · have hcond : (h.data.isEmpty || !(schemeOk h)) = false := by
        rw [schemeOk_ne_nil hscheme, hscheme]
        rfl
      cases hsp : splitSecond h.data with
      | none =>
        have hmid : adminAuthMiddleware tok (some h) = .forbidden := by
          simp [adminAuthMiddleware, hcond, hsp]
        refine ⟨?_, ?_, ?_, ?_⟩
        · rintro (hc | ⟨h', hh', hc'⟩)
          · cases hc
          · cases hh'
            rw [hcond] at hc'
            cases hc'
        · intro h' hh' _ _
          cases hh'
          simp [dashboardRoute, hmid]
        · intro h' hh' _ hts
          cases hh'
          rw [hsp] at hts
          cases hts
        · constructor
          · intro hc
            simp [dashboardRoute, hmid] at hc
          · rintro ⟨h', hh', -, hts⟩
            cases hh'
            rw [hsp] at hts
            cases hts
      | some t =>
        by_cases htok : String.mk t = tok
        · have hts : t = tok.data := (stringMkEqIff t tok).mp htok
          have hmid : adminAuthMiddleware tok (some h) = .allowed := by
            simp [adminAuthMiddleware, hcond, hsp, htok]
          have hroute : dashboardRoute tok db (some h) false false =
              ⟨200, none, some (usersQuery db), some (keysQuery db)⟩ := by
            simp [dashboardRoute, hmid]
            rfl
          refine ⟨?_, ?_, fun _ _ _ _ => hroute, ?_⟩
          · rintro (hc | ⟨h', hh', hc'⟩)
            · cases hc
            · cases hh'
              rw [hcond] at hc'
              cases hc'
          · intro h' hh' _ hne
            cases hh'
            rw [hsp, hts] at hne
            exact absurd rfl hne
          · rw [hroute]
            exact ⟨fun _ => ⟨h, rfl, hscheme, by rw [hsp, hts]⟩, fun _ => rfl⟩
        · have hmid : adminAuthMiddleware tok (some h) = .forbidden := by
            simp [adminAuthMiddleware, hcond, hsp, htok]
          refine ⟨?_, ?_, ?_, ?_⟩
          · rintro (hc | ⟨h', hh', hc'⟩)
            · cases hc
            · cases hh'
              rw [hcond] at hc'
              cases hc'
          · intro h' hh' _ _
            cases hh'
            simp [dashboardRoute, hmid]
          · intro h' hh' _ hts
            cases hh'
            rw [hsp] at hts
            exact absurd ((stringMkEqIff t tok).mpr (Option.some.inj hts)) htok
          · constructor
            · intro hc
              simp [dashboardRoute, hmid] at hc
            · rintro ⟨h', hh', -, hts⟩
              cases hh'
              rw [hsp] at hts
              exact absurd ((stringMkEqIff t tok).mpr (Option.some.inj hts)) htok
    · have hcond : (h.data.isEmpty || !(schemeOk h)) = true := by
        rw [Bool.not_eq_true] at hscheme
        rw [hscheme]
        simp
      have hmid : adminAuthMiddleware tok (some h) = .unauthenticated := by
        simp [adminAuthMiddleware, hcond]
      refine ⟨fun _ => by simp [dashboardRoute, hmid], ?_, ?_, ?_⟩
      · intro h' hh' hs _
        cases hh'
        exact absurd hs hscheme
      · intro h' hh' hs _
        cases hh'
        exact absurd hs hscheme
      · constructor
        · intro hc
          simp [dashboardRoute, hmid] at hc
        · rintro ⟨h', hh', hs, -⟩
          cases hh'
          exact absurd hs hscheme

/-- Witness for C4: with secret `s`, the header `Bearer s` yields 200 with
both lists, a missing header yields 401, and `Bearer x` yields 403. -/
theorem C4_dashboard_auth_witness :
    dashboardRoute "s" emptyDB (some "Bearer s") false false =
      ⟨200, none, some (usersQuery emptyDB), some (keysQuery emptyDB)⟩ ∧
    (dashboardRoute "s" emptyDB none false false).status = 401 ∧
    (dashboardRoute "s" emptyDB (some "Bearer x") false false).status = 403 := by
  refine ⟨?_, ?_, ?_⟩
  · exact (C4_dashboard_auth "s" emptyDB (some "Bearer s")).2.2.1 "Bearer s" rfl
      (by decide) (by decide)
  · exact (C4_dashboard_auth "s" emptyDB none).1 (Or.inl rfl)
  · exact (C4_dashboard_auth "s" emptyDB (some "Bearer x")).2.1 "Bearer x" rfl
      (by decide) (by decide)

/-- C10: the middleware token is the substring of the header between the
first and the second space.  Once the scheme check passes the result is never
401: it is 200-bound (`allowed`) exactly when `split(' ')[1]` equals the
secret and 403 (`forbidden`) otherwise — including for the header
`Bearer ` whose extracted token is the empty string; extraction takes the
first space-delimited word even when further text follows; and the scheme
check is case-sensitive: a `bearer ...` header is rejected 401. -/
theorem C10_token_between_spaces :
    (∀ tok h : String, schemeOk h = true →
      adminAuthMiddleware tok (some h) ≠ .unauthenticated ∧
      (adminAuthMiddleware tok (some h) = .allowed ↔ splitSecond h.data = some tok.data)) ∧
    (∀ t rest : String, ' ' ∉ t.data →
      splitSecond ("Bearer " ++ t ++ " " ++ rest).data = some t.data ∧
      splitSecond ("Bearer " ++ t).data = some t.data) ∧
    (∀ tok : String, tok ≠ "" → adminAuthMiddleware tok (some "Bearer ") = .forbidden) ∧
    (∀ tok t : String, adminAuthMiddleware tok (some ("bearer " ++ t)) = .unauthenticated) := by
  refine ⟨?_, ?_, ?_, ?_⟩
  · intro tok h hs
    have hcond : (h.data.isEmpty || !(schemeOk h)) = false := by
      rw [schemeOk_ne_nil hs, hs]
      rfl
    constructor
    · cases hsp : splitSecond h.data with
      | none => simp [adminAuthMiddleware, hcond, hsp]
      | some t =>
        by_cases htok : String.mk t = tok <;> simp [adminAuthMiddleware, hcond, hsp, htok]
    · cases hsp : splitSecond h.data with
      | none => simp [adminAuthMiddleware, hcond, hsp]
      | some t =>
        by_cases htok : String.mk t = tok
        · have hmid : adminAuthMiddleware tok (some h) = .allowed := by
            simp [adminAuthMiddleware, hcond, hsp, htok]
          rw [hmid]
          exact ⟨fun _ => by rw [(stringMkEqIff t tok).mp htok], fun _ => rfl⟩
        · have hmid : adminAuthMiddleware tok (some h) = .forbidden := by
            simp [adminAuthMiddleware, hcond, hsp, htok]
          rw [hmid]
          exact ⟨fun hc => absurd hc (by decide),
                 fun hc => absurd ((stringMkEqIff t tok).mpr (Option.some.inj hc)) htok⟩
  · intro t rest hsp
    have hB : ("Bearer " : String).data = ['B', 'e', 'a', 'r', 'e', 'r', ' '] := by decide
    have hS : (" " : String).data = [' '] := by decide
    have hall : ∀ a ∈ t.data, (a != ' ') = true :=
      fun a ha => bne_iff_ne.mpr (fun hEq => hsp (hEq ▸ ha))
    constructor
    · have hd : ("Bearer " ++ t ++ " " ++ rest).data =
          ['B', 'e', 'a', 'r', 'e', 'r', ' '] ++ (t.data ++ (' ' :: rest.data)) := by
        rw [strDataAppend, strDataAppend, strDataAppend, hB, hS]
        simp
      rw [hd]
      show some ((t.data ++ (' ' :: rest.data)).takeWhile fun c => c != ' ') = some t.data
      rw [List.takeWhile_append_of_pos hall]
      simp
    · have hd : ("Bearer " ++ t).data = ['B', 'e', 'a', 'r', 'e', 'r', ' '] ++ t.data := by
        rw [strDataAppend, hB]
      rw [hd]
      show some (t.data.takeWhile fun c => c != ' ') = some t.data
      have h2 := @List.takeWhile_append_of_pos Char (fun a => a != ' ') t.data [] hall
      simp only [List.append_nil, List.takeWhile_nil] at h2
      rw [h2]
  · intro tok htok
    have hc : (("Bearer " : String).data.isEmpty || !(schemeOk "Bearer ")) = false := by decide
    have h1 : splitSecond ("Bearer " : String).data = some [] := by decide
    have hne : ¬ (String.mk [] = tok) :=
      fun hEq => htok (hEq.symm.trans (by decide))
    have hst : schemeOk "Bearer " = true := by decide
    simp [adminAuthMiddleware, hc, h1, hne, hst]
  · intro tok t
    have hb : ("bearer " : String).data = ['b', 'e', 'a', 'r', 'e', 'r', ' '] := by decide
    have hd : ("bearer " ++ t).data = ['b', 'e', 'a', 'r', 'e', 'r', ' '] ++ t.data := by
      rw [strDataAppend, hb]
    have hsch : schemeOk ("bearer " ++ t) = false := by
      rw [schemeOk, hd]
      rfl
    have hemp : ("bearer " ++ t).data.isEmpty = false := by
      rw [hd]
      rfl
    simp [adminAuthMiddleware, hsch, hemp]

/-- Witness for C10: concrete headers exercising each clause. -/
theorem C10_token_between_spaces_witness :
    splitSecond ("Bearer " ++ "abc" ++ " " ++ "def").data = some ("abc" : String).data ∧
    adminAuthMiddleware "s" (some "Bearer ") = .forbidden ∧
    adminAuthMiddleware "s" (some ("bearer " ++ "x")) = .unauthenticated ∧
    (adminAuthMiddleware "abc" (some "Bearer abc def") = .allowed ↔
      splitSecond ("Bearer abc def" : String).data = some ("abc" : String).data) := by
  obtain ⟨h1, h2, h3, h4⟩ := C10_token_between_spaces
  exact ⟨(h2 "abc" "def" (by decide)).1, h3 "s" (by decide), h4 "s" "x",
    (h1 "abc" "Bearer abc def" (by decide)).2⟩

theorem isoDatetimeOfMs_shape (ms : Nat) : isMysqlDatetimeShape (isoDatetimeOfMs ms) = true := by
  have hd : ∀ n : Nat, (digitChar (n % 10)).isDigit = true :=
    fun n => digitChar_isDigit _ (Nat.mod_lt _ (by omega))
  simp only [isoDatetimeOfMs, isMysqlDatetimeShape, pad4, pad2, List.cons_append,
    List.nil_append]
  simp [hd]

/-- C6: `getExpirationDate` applied to the default 30 days renders the
current time advanced by exactly 30 days (30 · 86400000 ms) in the MySQL
DATETIME shape `YYYY-MM-DD HH:MM:SS`; the bare call uses 30 as default; and
on every 201 registration this exact string is both stored as the new
ApiKey row's `expires_at` and returned as the response's `expiresAt`.  The
range hypothesis keeps the time within the four-digit-year span in which the
embedding of `toISOString` is faithful. -/
theorem C6_expiration_date (nowMs : Nat)
    (hrange : nowMs + 30 * 86400000 < 253402300800000) :
    getExpirationDate nowMs 30 = isoDatetimeOfMs (nowMs + 30 * 86400000) ∧
    isMysqlDatetimeShape (getExpirationDate nowMs 30) = true ∧
    getExpirationDate nowMs = getExpirationDate nowMs 30 ∧
    (∀ (db : DB) (ent : List Nat) (fn ln em : JsVal) (r : UserRegisterResp) (db' : DB)
       (ev : List Event),
       userRegister db noFaults ent nowMs fn ln em = (r, db', ev) → r.status = 201 →
       r.expiresAt = some (getExpirationDate nowMs 30) ∧
       db'.apiKeys.getLast?.map ApiKeyRow.expires_at = some (getExpirationDate nowMs 30)) := by
  refine ⟨rfl, isoDatetimeOfMs_shape _, rfl, ?_⟩
  intro db ent fn ln em r db' ev h h201
  obtain ⟨hA, -, -, -⟩ := userRegister_run db noFaults ent nowMs fn ln em r db' ev h
  obtain ⟨-, hexp, -, hkeys, -⟩ := hA h201
  refine ⟨hexp, ?_⟩
  rw [hkeys, List.getLast?_concat]
  rfl

/-- Witness for C6: a concrete clock (2025-10-12 00:00:00 UTC) whose
expiration renders as 2025-11-11 00:00:00, of the required shape. -/
theorem C6_expiration_date_witness :
    getExpirationDate 1760227200000 30 = "2025-11-11 00:00:00" ∧
    isMysqlDatetimeShape (getExpirationDate 1760227200000 30) = true ∧
    (userRegister emptyDB noFaults (List.replicate 32 7) 1760227200000
      (.str "Ada") (.str "Lovelace") (.str "ada@example.com")).1.expiresAt =
      some (getExpirationDate 1760227200000 30) := by
  have h := C6_expiration_date 1760227200000 (by norm_num)
  refine ⟨by decide, h.2.1, ?_⟩
  exact ((h.2.2.2 emptyDB (List.replicate 32 7) (.str "Ada") (.str "Lovelace")
    (.str "ada@example.com") _ _ _ rfl (by decide))).1
